import Mathlib

/-!
Verification development for the live-code-execution-engine backend.

The definitions below are a shallow embedding of the JavaScript sources:
  * `src/backend/src/models/Execution.js` and the `Session`/`Language`
    models (SQL row stores become Lean lists; a single-row UPDATE by
    primary key becomes a `List.map` that rewrites the matching rows).
  * `src/backend/src/services/SafetyService.js` (parameter validation,
    the abuse/rate gate, and the infinite-loop regex scan).
  * `src/backend/src/services/CodeExecutionService.js` (`executeCode`,
    the Runner). Child-process results are passed in as explicit
    `ExecResult` values: `execAsync` either resolves with captured
    stdout/stderr or rejects with an error object carrying
    `killed/code/stdout/stderr/message`.
  * `src/backend/src/workers/codeExecutionWorker.js` (`processExecution`).
  * `ExecutionService.submitExecution` (unnamed part_003 of the repo).
Effects (clock, UUID generation, DB availability, broker availability)
are threaded as explicit arguments so the functions stay executable.
-/

namespace LiveCode

/-- `execution_status_enum` of `schema.sql`. -/
inductive ExecStatus where
  | QUEUED
  | RUNNING
  | COMPLETED
  | FAILED
  | TIMEOUT
deriving DecidableEq, Repr

/-- `session_status_enum` of `schema.sql`. -/
inductive SessStatus where
  | ACTIVE
  | INACTIVE
deriving DecidableEq, Repr

/-- A row of the `executions` table. UUIDs are modelled as `Nat`,
timestamps as `Int` (seconds). Nullable columns are `Option`. -/
structure ExecutionRow where
  id : Nat
  session_id : Nat
  status : ExecStatus
  stdout : Option String
  stderr : Option String
  execution_time_ms : Option Int
  exit_code : Option Int
  timeout : Bool
  created_at : Int
  started_at : Option Int
  finished_at : Option Int
deriving DecidableEq, Repr

/-- A row of the `sessions` table. -/
structure SessionRow where
  id : Nat
  language_id : Nat
  status : SessStatus
  source_code : String
deriving DecidableEq, Repr

/-- A row of the `languages` table (the fields the executor reads). -/
structure LanguageRow where
  id : Nat
  runtime : String
  file_name : String
deriving DecidableEq, Repr

/-- The durable store: the three tables of `schema.sql`. -/
structure Store where
  languages : List LanguageRow
  sessions : List SessionRow
  executions : List ExecutionRow
deriving DecidableEq, Repr

/-- `Execution.findById`: `SELECT * FROM executions WHERE id = $1`. -/
def Execution.findById (st : Store) (id : Nat) : Option ExecutionRow :=
  st.executions.find? (fun r => r.id == id)

/-- `Execution.create`: `INSERT INTO executions (id, session_id, status)`
with the schema defaults for the remaining columns
(`status DEFAULT 'QUEUED'` is passed explicitly by the caller,
`timeout DEFAULT FALSE`, `created_at DEFAULT NOW()`). -/
def Execution.create (st : Store) (id session_id : Nat) (now : Int) :
    Store × ExecutionRow :=
  let row : ExecutionRow :=
    { id := id
      session_id := session_id
      status := .QUEUED
      stdout := none
      stderr := none
      execution_time_ms := none
      exit_code := none
      timeout := false
      created_at := now
      started_at := none
      finished_at := none }
  ({ st with executions := st.executions ++ [row] }, row)

/-- `Execution.updateStarted`:
`UPDATE executions SET status = 'RUNNING', started_at = NOW() WHERE id = $1`.
Note the WHERE clause tests only the id — there is no `AND status = 'QUEUED'`
guard in the source. -/
def Execution.updateStarted (st : Store) (id : Nat) (now : Int) : Store :=
  { st with
    executions := st.executions.map fun r =>
      if r.id == id then { r with status := .RUNNING, started_at := some now }
      else r }

/-- The payload of `Execution.updateResult`. -/
structure ResultData where
  status : ExecStatus
  stdout : String
  stderr : String
  execution_time_ms : Int
  exit_code : Option Int
  timeout : Bool
  finished_at : Int
deriving DecidableEq, Repr

/-- `Execution.updateResult`: a single UPDATE by primary key that
overwrites status, stdout, stderr, execution_time_ms, exit_code,
timeout and finished_at. Again the WHERE clause tests only the id. -/
def Execution.updateResult (st : Store) (id : Nat) (d : ResultData) : Store :=
  { st with
    executions := st.executions.map fun r =>
      if r.id == id then
        { r with
          status := d.status
          stdout := some d.stdout
          stderr := some d.stderr
          execution_time_ms := some d.execution_time_ms
          exit_code := d.exit_code
          timeout := d.timeout
          finished_at := some d.finished_at }
      else r }

/-- `Session.findById`: `SELECT * FROM sessions WHERE id = $1`. -/
def Session.findById (st : Store) (id : Nat) : Option SessionRow :=
  st.sessions.find? (fun s => s.id == id)

/-- `Language.findById`. -/
def Language.findById (st : Store) (id : Nat) : Option LanguageRow :=
  st.languages.find? (fun l => l.id == id)

/-- `Session.findWithLanguage`: sessions JOIN languages on language_id;
returns a row only when both sides exist. -/
def Session.findWithLanguage (st : Store) (id : Nat) :
    Option (SessionRow × LanguageRow) := do
  let s ← Session.findById st id
  let l ← Language.findById st s.language_id
  pure (s, l)

/-! ## SafetyService.validateExecutionParams -/

/-- Result shape `{ valid, errors }`. -/
structure ValidationResult where
  valid : Bool
  errors : List String
deriving DecidableEq, Repr

/-- `SafetyService.validateExecutionParams(timeLimit, memoryLimit, language)`.
The third (`language`) parameter of the source is never read, so it is
omitted here. Bounds: 100 ≤ time ≤ 60000, 32 ≤ memory ≤ 2048; one error
string is pushed per out-of-range parameter. -/
def validateExecutionParams (timeLimit memoryLimit : Int) : ValidationResult :=
  let errors : List String :=
    (if timeLimit < 100 ∨ 60000 < timeLimit then
      ["Time limit must be between 100ms and 60000ms"] else []) ++
    (if memoryLimit < 32 ∨ 2048 < memoryLimit then
      ["Memory limit must be between 32MB and 2048MB"] else [])
  { valid := errors.isEmpty, errors := errors }

/-! ## SafetyService.checkExecutionAbuse -/

/-- The SQL aggregate of `checkExecutionAbuse`: over executions of the
session with `created_at > now − 60`, the total count and the count with
status `FAILED`. -/
def recentQuery (st : Store) (sessionId : Nat) (now : Int) : Nat × Nat :=
  let recent := st.executions.filter
    (fun r => r.session_id == sessionId && decide (now - 60 < r.created_at))
  (recent.length, (recent.filter (fun r => r.status == .FAILED)).length)

/-- Result shape `{ allowed, reason?, retryAfter? }`. -/
structure AbuseResult where
  allowed : Bool
  reason : Option String
  retryAfter : Option Int
deriving DecidableEq, Repr

/-- The body of `SafetyService.checkExecutionAbuse` given the outcome of
the store query. A rejected query (`.error`) is the catch branch: the
gate fails open and returns `allowed = true`. -/
def checkExecutionAbuse (queryRes : Except String (Nat × Nat)) : AbuseResult :=
  match queryRes with
  | .error _ => { allowed := true, reason := none, retryAfter := none }
  | .ok (count, failedCount) =>
    if 10 ≤ count then
      { allowed := false
        reason := some ("Rate limit exceeded: " ++ toString count ++
          "/10 executions in 60s")
        retryAfter := some 60 }
    else if 5 ≤ failedCount then
      { allowed := false
        reason := some ("Too many failed attempts: " ++
          toString failedCount ++ "/5")
        retryAfter := some 60 }
    else { allowed := true, reason := none, retryAfter := none }

/-- `checkExecutionAbuse` wired to the durable store; `dbOk = false`
models the query throwing. -/
def checkExecutionAbuseOn (st : Store) (sessionId : Nat) (now : Int)
    (dbOk : Bool) : AbuseResult :=
  checkExecutionAbuse
    (if dbOk then .ok (recentQuery st sessionId now) else .error "query failed")

/-! ## SafetyService.detectInfiniteLoopPatterns

A small executable regular-expression engine (Brzozowski derivatives)
interprets the literal patterns of the source. All the source's patterns
carry the `i` flag, so character classes are matched case-insensitively.
They also carry the `g` flag; a `g`-regex's `test` is stateful through
`lastIndex`, but the `patterns` object of the source is built from regex
literals inside the function body, and each evaluation of a regex literal
yields a fresh object with `lastIndex = 0` that is then tested at most
once — so no regex state survives a call and `test` behaves as a plain
whole-string search. -/

/-- Regular expressions: empty language, empty string, a character class,
concatenation, alternation, Kleene star. -/
inductive RE where
  | emp
  | eps
  | cls (p : Char → Bool)
  | seq (a b : RE)
  | alt (a b : RE)
  | star (r : RE)

/-- Does the language of `r` contain the empty string? -/
def RE.nullable : RE → Bool
  | .emp => false
  | .eps => true
  | .cls _ => false
  | .seq a b => a.nullable && b.nullable
  | .alt a b => a.nullable || b.nullable
  | .star _ => true

/-- Brzozowski derivative of `r` with respect to `c`. -/
def RE.deriv : RE → Char → RE
  | .emp, _ => .emp
  | .eps, _ => .emp
  | .cls p, c => if p c then .eps else .emp
  | .seq a b, c =>
    if a.nullable then .alt (.seq (a.deriv c) b) (b.deriv c)
    else .seq (a.deriv c) b
  | .alt a b, c => .alt (a.deriv c) (b.deriv c)
  | .star r, c => .seq (r.deriv c) (.star r)

/-- Does `r` match some (possibly empty) byte-for-byte front of `s`? -/
def RE.matchesFront : RE → List Char → Bool
  | r, [] => r.nullable
  | r, c :: cs => r.nullable || (r.deriv c).matchesFront cs

/-- Does `r` match some substring of `s`? This is `regex.test(s)` for a
fresh regex object. -/
def RE.search : RE → List Char → Bool
  | r, [] => r.matchesFront []
  | r, c :: cs => r.matchesFront (c :: cs) || r.search cs

/-- `regex.test(sourceCode)` on a freshly created regex object. -/
def testRegex (r : RE) (s : String) : Bool := r.search s.toList

/-- A single character, case-insensitively (the `i` flag). -/
def litci (c : Char) : RE := .cls (fun x => x.toLower == c.toLower)

/-- A literal string, case-insensitively. -/
def strci (s : String) : RE :=
  s.toList.foldr (fun c acc => .seq (litci c) acc) .eps

/-- `\s` (whitespace class). -/
def wsChar : RE := .cls (fun c => c.isWhitespace)

/-- `\s*`. -/
def ws0 : RE := .star wsChar

/-- `\s+`. -/
def ws1 : RE := .seq wsChar (.star wsChar)

/-- `\w` = `[A-Za-z0-9_]`. -/
def wordChar : RE := .cls (fun c => c.isAlphanum || c == '_')

/-- `\w+`. -/
def word1 : RE := .seq wordChar (.star wordChar)

/-- Concatenation of a list of regexes. -/
def seqs (l : List RE) : RE := l.foldr .seq .eps

/-- The `python` entry of the `patterns` table, each paired with the
string `RegExp.toString()` would print (used for `pattern`/`message`). -/
def pythonPatterns : List (String × RE) :=
  [("/while\\s+True\\s*:/gi",
    seqs [strci "while", ws1, strci "True", ws0, litci ':']),
   ("/while\\s+1\\s*:/gi",
    seqs [strci "while", ws1, litci '1', ws0, litci ':']),
   ("/for\\s+\\w+\\s+in\\s+iter\\(\\s*int\\s*,\\s*1\\s*\\)/gi",
    seqs [strci "for", ws1, word1, ws1, strci "in", ws1, strci "iter",
          litci '(', ws0, strci "int", ws0, litci ',', ws0, litci '1',
          ws0, litci ')'])]

/-- The identical pattern list the source repeats under the `node`,
`gcc` and `g++` keys. -/
def cStylePatterns : List (String × RE) :=
  [("/while\\s*\\(\\s*true\\s*\\)/gi",
    seqs [strci "while", ws0, litci '(', ws0, strci "true", ws0, litci ')']),
   ("/while\\s*\\(\\s*1\\s*\\)/gi",
    seqs [strci "while", ws0, litci '(', ws0, litci '1', ws0, litci ')']),
   ("/for\\s*\\(\\s*;\\s*;\\s*\\)/gi",
    seqs [strci "for", ws0, litci '(', ws0, litci ';', ws0, litci ';',
          ws0, litci ')'])]

/-- `patterns[language.runtime] || []`. -/
def loopPatternsFor (runtime : String) : List (String × RE) :=
  if runtime == "python" then pythonPatterns
  else if runtime == "node" then cStylePatterns
  else if runtime == "gcc" then cStylePatterns
  else if runtime == "g++" then cStylePatterns
  else []

/-- Result shape `{ detected, pattern?, message? }`. -/
structure DetectResult where
  detected : Bool
  pattern : Option String
  message : Option String
deriving DecidableEq, Repr

/-- `SafetyService.detectInfiniteLoopPatterns(sourceCode, language)`.
The source receives an object and reads `language.runtime`; the runtime
key is taken directly here. The loop returns on the first pattern whose
`test` succeeds. -/
def detectInfiniteLoopPatterns (sourceCode : String) (runtime : String) :
    DetectResult :=
  match (loopPatternsFor runtime).find? (fun p => testRegex p.2 sourceCode) with
  | some p =>
    { detected := true
      pattern := some p.1
      message := some ("Potential infinite loop detected: " ++ p.1) }
  | none => { detected := false, pattern := none, message := none }

/-- A sequence of calls to `detectInfiniteLoopPatterns`. Because the
source rebuilds the `patterns` object from regex literals on every call,
no mutable regex state (`lastIndex`) flows from one call into the next,
and the sequence of results is the pointwise image of the arguments. -/
def detectCalls (calls : List (String × String)) : List DetectResult :=
  calls.map (fun a => detectInfiniteLoopPatterns a.1 a.2)

/-! ## CodeExecutionService.executeCode (the Runner)

`execAsync` either resolves with `{stdout, stderr}` or rejects with an
error object. The rejection carries `killed` (true when the child was
killed, e.g. on timeout), `code` (the exit code, absent when killed by a
signal), the captured `stdout`/`stderr`, and `message`. The filesystem
steps (mkdir, writeFile, rm) are assumed to succeed; the one `throw`
reaching the outer catch in this model is the unsupported-runtime one of
the source's `default` switch branch. -/

/-- The error object a rejected `execAsync` call carries. -/
structure ExecError where
  killed : Bool
  code : Option Int
  stdout : String
  stderr : String
  message : String
deriving DecidableEq, Repr

/-- Outcome of one `execAsync` invocation. -/
inductive ExecResult where
  | ok (stdout stderr : String)
  | err (e : ExecError)
deriving DecidableEq, Repr

/-- The RunnerOutcome record `executeCode` returns. -/
structure RunnerOutcome where
  status : ExecStatus
  stdout : String
  stderr : String
  execution_time_ms : Int
  exit_code : Option Int
  timeout : Bool
deriving DecidableEq, Repr

/-- JavaScript `a || b` on strings: the empty string is falsy. -/
def jsOr (a b : String) : String := if a == "" then b else a

/-- JavaScript `error.code || 1`: `0`, `null` and `undefined` are falsy. -/
def jsOrCode (c : Option Int) : Int :=
  match c with
  | some v => if v == 0 then 1 else v
  | none => 1

/-- Does the second list start with the first one? -/
def startsWithList : List Char → List Char → Bool
  | [], _ => true
  | _ :: _, [] => false
  | c :: cs, d :: ds => c == d && startsWithList cs ds

/-- Does `hay` contain `needle` as a contiguous run? -/
def hasSubList (needle : List Char) : List Char → Bool
  | [] => needle.isEmpty
  | d :: ds => startsWithList needle (d :: ds) || hasSubList needle ds

/-- `hay.toLowerCase().includes(pat)` for an already-lowercase `pat`. -/
def containsLower (hay : String) (pat : String) : Bool :=
  hasSubList pat.toList (hay.toList.map Char.toLower)

/-- The compile step of the `gcc`/`g++` branches. Returns `some outcome`
when the branch returns early (compile judged failed), `none` when the
run step proceeds. Mirrors:
exit 0 → `compileOutput = stdout || stderr || ''`, early FAILED return
when the lowercased output contains `error` or `not found`;
rejection → early FAILED return with
`stderr = (error.stderr || error.stdout || (error.message || 'Compilation failed')) || fallback`. -/
def compileStepFailure (fallback : String) (compileRes : ExecResult) :
    Option RunnerOutcome :=
  match compileRes with
  | .ok out err =>
    let compileOutput := jsOr out (jsOr err "")
    if containsLower compileOutput "error" || containsLower compileOutput "not found" then
      some { status := .FAILED
             stdout := ""
             stderr := jsOr compileOutput fallback
             execution_time_ms := 0
             exit_code := some 1
             timeout := false }
    else none
  | .err e =>
    let errorMsg := jsOr e.message "Compilation failed"
    let errStr := jsOr e.stderr (jsOr e.stdout errorMsg)
    some { status := .FAILED
           stdout := ""
           stderr := jsOr errStr fallback
           execution_time_ms := 0
           exit_code := some 1
           timeout := false }

/-- The run step: `execAsync(executeCommand, {timeout, maxBuffer})` and
the outcome classification of the source (resolution → COMPLETED;
rejection with `killed` → TIMEOUT; other rejection → FAILED). -/
def runStep (runRes : ExecResult) (executionTime : Int) : RunnerOutcome :=
  match runRes with
  | .ok out err =>
    { status := .COMPLETED
      stdout := jsOr out ""
      stderr := jsOr err ""
      execution_time_ms := executionTime
      exit_code := some 0
      timeout := false }
  | .err e =>
    if e.killed then
      { status := .TIMEOUT
        stdout := jsOr e.stdout ""
        stderr := jsOr e.stderr "Execution timeout"
        execution_time_ms := executionTime
        exit_code := none
        timeout := true }
    else
      { status := .FAILED
        stdout := jsOr e.stdout ""
        stderr := jsOr e.stderr e.message
        execution_time_ms := executionTime
        exit_code := some (jsOrCode e.code)
        timeout := false }

/-- `CodeExecutionService.executeCode(language, sourceCode, timeLimit,
memoryLimit)`. The child-process results are explicit inputs:
`compileRes` is consumed only on the `gcc`/`g++` branches, `runRes` by
the run step, `executionTime` is the measured wall clock. The `default`
switch branch throws `Unsupported language: <runtime>`, which the outer
catch converts to a FAILED outcome with that message as stderr. -/
def executeCode (language : LanguageRow) (sourceCode : String)
    (compileRes runRes : ExecResult) (executionTime : Int) : RunnerOutcome :=
  if language.runtime == "python" then runStep runRes executionTime
  else if language.runtime == "node" then runStep runRes executionTime
  else if language.runtime == "gcc" then
    match compileStepFailure "Compilation failed - gcc may not be installed" compileRes with
    | some o => o
    | none => runStep runRes executionTime
  else if language.runtime == "g++" then
    match compileStepFailure "Compilation failed - g++ may not be installed" compileRes with
    | some o => o
    | none => runStep runRes executionTime
  else
    { status := .FAILED
      stdout := ""
      stderr := "Unsupported language: " ++ language.runtime
      execution_time_ms := 0
      exit_code := some 1
      timeout := false }

/-! ## codeExecutionWorker.processExecution

The BullMQ `Worker` acks a job whose processor resolves and treats a
processor that throws as a failed attempt, retried with backoff while
`attemptsMade < attempts`. `processExecution` therefore returns both the
final durable store and an `Except`: `.ok` means the job completes
(ack), `.error` means the thrown error propagates to BullMQ (the job is
nacked and retried). DB writes themselves are assumed not to throw. -/

/-- What the queue does with the job after the processor returns. -/
inductive JobDisposition where
  | ack
  | nack
deriving DecidableEq, Repr

/-- BullMQ worker semantics: resolution acks, a throw nacks (failed
attempt, retried while attempts remain). -/
def disposeOf (r : Except String RunnerOutcome) : JobDisposition :=
  match r with
  | .ok _ => .ack
  | .error _ => .nack

/-- Result of one `processExecution` call: the value returned to BullMQ
(or the rethrown error) and the durable store afterwards. -/
structure WorkerResult where
  result : Except String RunnerOutcome
  store : Store
deriving Repr

/-- `processExecution(job)` with `job.data = {execution_id, session_id,
time_limit, memory_limit}`. Steps of the try block: `updateStarted`,
`Session.findWithLanguage` (throws `Session not found: <id>` on a missing
join row), `Language.findById` (throws `Language not found: <id>`),
`executeCode`, `updateResult` with the outcome. The catch block writes a
FAILED row with `stderr = error.message` and then rethrows
(`throw error`), so the job is handed back to the queue as failed. -/
def processExecution (st : Store) (execId sessId : Nat)
    (compileRes runRes : ExecResult) (executionTime : Int) (now : Int) :
    WorkerResult :=
  let st1 := Execution.updateStarted st execId now
  match Session.findWithLanguage st1 sessId with
  | none =>
    let msg := "Session not found: " ++ toString sessId
    let st2 := Execution.updateResult st1 execId
      { status := .FAILED, stdout := "", stderr := msg
        execution_time_ms := 0, exit_code := some 1, timeout := false
        finished_at := now }
    { result := .error msg, store := st2 }
  | some (session, _) =>
    match Language.findById st1 session.language_id with
    | none =>
      let msg := "Language not found: " ++ toString session.language_id
      let st2 := Execution.updateResult st1 execId
        { status := .FAILED, stdout := "", stderr := msg
          execution_time_ms := 0, exit_code := some 1, timeout := false
          finished_at := now }
      { result := .error msg, store := st2 }
    | some language =>
      let outcome := executeCode language session.source_code
        compileRes runRes executionTime
      let st2 := Execution.updateResult st1 execId
        { status := outcome.status, stdout := outcome.stdout
          stderr := outcome.stderr
          execution_time_ms := outcome.execution_time_ms
          exit_code := outcome.exit_code, timeout := outcome.timeout
          finished_at := now }
      { result := .ok outcome, store := st2 }

/-! ## ExecutionService.submitExecution -/

/-- A BullMQ job: `jobId` (set to the execution id) plus the payload. -/
structure Job where
  id : Nat
  execution_id : Nat
  session_id : Nat
  time_limit : Int
  memory_limit : Int
deriving DecidableEq, Repr

/-- `codeExecutionQueue.add(name, data, {jobId})`. BullMQ silently
ignores an add whose `jobId` already exists (deduplication); a broker
error rejects the returned promise. -/
def queueAdd (q : List Job) (j : Job) (brokerOk : Bool) :
    Except String (List Job) :=
  if brokerOk then
    if q.any (fun x => x.id == j.id) then .ok q else .ok (q ++ [j])
  else .error "enqueue failed"

/-- The errors `submitExecution` throws. -/
inductive SubmitErr where
  | validationFailed (msg : String)
  | rateLimited (reason : String) (retryAfter : Int)
  | sessionNotFound (msg : String)
  | enqueueFailed (msg : String)
deriving DecidableEq, Repr

/-- The success value `{execution_id, status}`. -/
structure SubmitResp where
  execution_id : Nat
  status : ExecStatus
deriving DecidableEq, Repr

/-- Outcome of one `submitExecution` call: the returned value or thrown
error, plus the durable store and the queue afterwards. A thrown error
does not roll either back. -/
structure SubmitOutcome where
  result : Except SubmitErr SubmitResp
  store : Store
  queue : List Job
deriving Repr

/-- `ExecutionService.submitExecution(sessionId, timeLimit, memoryLimit)`.
Order of the source: `validateExecutionParams`; `checkExecutionAbuse`
(throw with `status = 429` and `retryAfter` on block); `Session.findById`
(throw `Session not found: <id>` when absent — the session's own
`status` column is never read, an INACTIVE session passes);
`detectInfiniteLoopPatterns(session.source_code, {runtime: 'node'})`
whose result only feeds a warning log; `Execution.create` with a fresh
UUID; `codeExecutionQueue.add` with `jobId = executionId` and no
try/catch around it, so an enqueue rejection propagates with the row
already inserted and still QUEUED. -/
def submitExecution (st : Store) (q : List Job) (sessionId : Nat)
    (timeLimit memoryLimit : Int) (now : Int) (freshId : Nat)
    (dbOk brokerOk : Bool) : SubmitOutcome :=
  let validation := validateExecutionParams timeLimit memoryLimit
  if !validation.valid then
    { result := .error (.validationFailed
        ("Validation failed: " ++ String.intercalate ", " validation.errors))
      store := st, queue := q }
  else
    let abuseCheck := checkExecutionAbuseOn st sessionId now dbOk
    if !abuseCheck.allowed then
      { result := .error (.rateLimited (abuseCheck.reason.getD "")
          (abuseCheck.retryAfter.getD 0))
        store := st, queue := q }
    else
      match Session.findById st sessionId with
      | none =>
        { result := .error (.sessionNotFound
            ("Session not found: " ++ toString sessionId))
          store := st, queue := q }
      | some session =>
        let _loopCheck :=
          detectInfiniteLoopPatterns session.source_code "node"
        let (st1, execution) := Execution.create st freshId sessionId now
        match queueAdd q
            { id := freshId, execution_id := freshId
              session_id := sessionId, time_limit := timeLimit
              memory_limit := memoryLimit } brokerOk with
        | .error msg =>
          { result := .error (.enqueueFailed msg), store := st1, queue := q }
        | .ok q1 =>
          { result := .ok { execution_id := execution.id
                            status := execution.status }
            store := st1, queue := q1 }

/-! ## Concrete fixtures used by witnesses and counterexamples -/

/-- A node language row. -/
def nodeLang : LanguageRow := { id := 1, runtime := "node", file_name := "index.js" }

/-- A session that was closed (status INACTIVE). -/
def closedSession : SessionRow :=
  { id := 1, language_id := 1, status := .INACTIVE, source_code := "" }

/-- Store holding only the closed session. -/
def closedSessionStore : Store :=
  { languages := [nodeLang], sessions := [closedSession], executions := [] }

/-- An open (ACTIVE) session. -/
def openSession : SessionRow :=
  { id := 1, language_id := 1, status := .ACTIVE, source_code := "" }

/-- Store holding only the open session. -/
def openSessionStore : Store :=
  { languages := [nodeLang], sessions := [openSession], executions := [] }

/-- An execution row that already reached the terminal status COMPLETED. -/
def completedRow : ExecutionRow :=
  { id := 7, session_id := 1, status := .COMPLETED, stdout := some "done"
    stderr := some "", execution_time_ms := some 12, exit_code := some 0
    timeout := false, created_at := 0, started_at := some 1
    finished_at := some 2 }

/-- Store holding only the completed row. -/
def completedRowStore : Store :=
  { languages := [], sessions := [], executions := [completedRow] }

/-- A QUEUED execution row for session 5, which does not exist. -/
def orphanQueuedRow : ExecutionRow :=
  { id := 9, session_id := 5, status := .QUEUED, stdout := none
    stderr := none, execution_time_ms := none, exit_code := none
    timeout := false, created_at := 0, started_at := none
    finished_at := none }

/-- Store holding the queued row but not its session. -/
def orphanQueuedStore : Store :=
  { languages := [], sessions := [], executions := [orphanQueuedRow] }

/-- A gcc language row. -/
def gccLang : LanguageRow := { id := 3, runtime := "gcc", file_name := "main.c" }

/-- A result payload used to exercise `updateResult`. -/
def resultDataFx : ResultData :=
  { status := .COMPLETED, stdout := "x", stderr := ""
    execution_time_ms := 3, exit_code := some 0, timeout := false
    finished_at := 5 }

/-- The outcome-record invariants of §8 of the spec: `timeout = true`
exactly on TIMEOUT, TIMEOUT has no exit code, COMPLETED has exit code 0
and no timeout flag. -/
def OutcomeInv (o : RunnerOutcome) : Prop :=
  (o.status = .TIMEOUT ↔ o.timeout = true) ∧
  (o.status = .TIMEOUT → o.exit_code = none) ∧
  (o.status = .COMPLETED → o.exit_code = some 0 ∧ o.timeout = false)

/-- Every FAILED row carries a non-empty stderr. -/
def FailedStderrInv (st : Store) : Prop :=
  ∀ row ∈ st.executions, row.status = .FAILED →
    row.stderr ≠ none ∧ row.stderr ≠ some ""

/-- Well-formedness of a child-process result: a rejected `execAsync`
promise carries an `Error`, whose `message` Node never leaves empty
(exec failures get `Command failed: <cmd>`). -/
def ExecResult.wf : ExecResult → Prop
  | .ok _ _ => True
  | .err e => e.message ≠ ""

/-! ## Helper lemmas -/

theorem append_ne_empty_left (s t : String) (h : s ≠ "") : s ++ t ≠ "" := by
  intro he
  apply h
  obtain ⟨ds⟩ := s
  obtain ⟨dt⟩ := t
  have hd : ds ++ dt = [] := by
    have := congrArg String.data he
    simpa using this
  have h1 : ds = [] := (List.append_eq_nil.mp hd).1
  simp [h1]

theorem jsOr_ne_empty (a b : String) (hb : b ≠ "") : jsOr a b ≠ "" := by
  unfold jsOr
  split
  · exact hb
  · next hcond => simpa using hcond

/-! ## Claims -/

/-- C5: for all inputs `(t, m)` the parameter validator accepts exactly
when `100 ≤ t ≤ 60000` and `32 ≤ m ≤ 2048`, and the `errors` list holds
one entry per violated bound (so both violations are reported, not just
the first). -/
theorem validateExecutionParams_iff_bounds (t m : Int) :
    ((validateExecutionParams t m).valid = true ↔
      (100 ≤ t ∧ t ≤ 60000 ∧ 32 ≤ m ∧ m ≤ 2048)) ∧
    (validateExecutionParams t m).errors.length =
      ((if t < 100 ∨ 60000 < t then 1 else 0) +
       (if m < 32 ∨ 2048 < m then 1 else 0)) := by
  unfold validateExecutionParams
  split_ifs with h1 h2 h2 <;> simp_all <;> omega

/-- C6: the abuse gate blocks (`allowed = false`) exactly when the store
query succeeds and reports at least 10 executions of the session created
in the last 60 seconds, or at least 5 of them FAILED; every block
carries `retryAfter = 60` and a reason; and when the store query throws
the gate fails open (`allowed = true`). -/
theorem checkExecutionAbuse_blocks_iff (st : Store) (sid : Nat) (now : Int)
    (dbOk : Bool) :
    ((checkExecutionAbuseOn st sid now dbOk).allowed = false ↔
      (dbOk = true ∧ (10 ≤ (recentQuery st sid now).1 ∨
        5 ≤ (recentQuery st sid now).2))) ∧
    ((checkExecutionAbuseOn st sid now dbOk).retryAfter =
      (if (checkExecutionAbuseOn st sid now dbOk).allowed then none else some 60)) ∧
    ((checkExecutionAbuseOn st sid now dbOk).reason.isSome =
      !(checkExecutionAbuseOn st sid now dbOk).allowed) ∧
    ((checkExecutionAbuseOn st sid now false).allowed = true) := by
  refine ⟨?_, ?_, ?_, ?_⟩ <;>
    cases dbOk <;>
    simp only [checkExecutionAbuseOn, checkExecutionAbuse, Bool.false_eq_true,
      if_false, if_true] <;>
    rcases hq : recentQuery st sid now with ⟨c, f⟩ <;>
    (try split_ifs) <;> simp_all

/-- C10: `detectInfiniteLoopPatterns` is deterministic — in any two call
sequences, a call with the same `(sourceCode, runtime)` arguments
returns the same result whatever calls preceded it, because the source
rebuilds its regex objects (and their `lastIndex` state) from literals
on every invocation. -/
theorem detectInfiniteLoopPatterns_deterministic
    (h h' : List (String × String)) (src lang : String) :
    (detectCalls (h ++ [(src, lang)])).getLast? =
      (detectCalls (h' ++ [(src, lang)])).getLast? ∧
    (detectCalls (h ++ [(src, lang)])).getLast? =
      some (detectInfiniteLoopPatterns src lang) := by
  simp [detectCalls, List.getLast?_concat]

/-- C1: the claim says an INACTIVE session is refused with SessionClosed
and nothing is written — but `submitExecution` never reads the session's
status column, so a submit against the closed session succeeds: it
returns QUEUED, inserts an execution row and enqueues a job. -/
theorem submitExecution_admits_inactive_session :
    closedSession.status = .INACTIVE ∧
    (submitExecution closedSessionStore [] 1 5000 256 100 42 true true).result
      = .ok { execution_id := 42, status := .QUEUED } ∧
    ((submitExecution closedSessionStore [] 1 5000 256 100 42 true true).store.executions.map
      (fun r => (r.id, r.status))) = [(42, .QUEUED)] ∧
    ((submitExecution closedSessionStore [] 1 5000 256 100 42 true true).queue.map
      (fun j => j.id)) = [42] :=
  ⟨rfl, rfl, rfl, rfl⟩

/-- C4: the claim says an enqueue failure after the insert marks the row
FAILED before surfacing the error — but there is no try/catch around
`codeExecutionQueue.add`, so when the broker is down the error
propagates while the inserted row stays QUEUED with no stderr and no
queued job. -/
theorem submitExecution_enqueue_failure_leaves_row_queued :
    (submitExecution openSessionStore [] 1 5000 256 100 42 true false).result
      = .error (.enqueueFailed "enqueue failed") ∧
    ((submitExecution openSessionStore [] 1 5000 256 100 42 true false).store.executions.map
      (fun r => (r.id, r.status, r.stderr))) = [(42, .QUEUED, none)] ∧
    (submitExecution openSessionStore [] 1 5000 256 100 42 true false).queue = [] :=
  ⟨rfl, rfl, rfl⟩

/-- C2 counterexample: `updateStarted` has no `status = 'QUEUED'` guard,
so applied to a store whose row 7 is already terminal (COMPLETED) it
still rewrites the row to RUNNING — refuting both the conditional
transition and the immutability of terminal rows. -/
theorem updateStarted_overwrites_terminal_row :
    completedRow.status = .COMPLETED ∧
    (Execution.updateStarted completedRowStore 7 99).executions =
      [{ completedRow with status := .RUNNING, started_at := some 99 }] :=
  ⟨rfl, rfl⟩

/-- C2 amended: the worker's writes are unconditional on status — for
any row whose id matches, `updateStarted` rewrites it to RUNNING and
`updateResult` overwrites its result fields, whatever its current
status (including the terminal ones). -/
theorem updateStarted_and_updateResult_unconditional
    (st : Store) (id : Nat) (now : Int) (d : ResultData) (r : ExecutionRow)
    (hr : r ∈ st.executions) (hid : r.id = id) :
    ({ r with status := .RUNNING, started_at := some now }
        ∈ (Execution.updateStarted st id now).executions) ∧
    ({ r with
       status := d.status
       stdout := some d.stdout
       stderr := some d.stderr
       execution_time_ms := some d.execution_time_ms
       exit_code := d.exit_code
       timeout := d.timeout
       finished_at := some d.finished_at }
        ∈ (Execution.updateResult st id d).executions) := by
  constructor
  · unfold Execution.updateStarted
    exact List.mem_map.mpr ⟨r, hr, by simp [hid]⟩
  · unfold Execution.updateResult
    exact List.mem_map.mpr ⟨r, hr, by simp [hid]⟩

/-- Witness for the C2 amended theorem at the COMPLETED fixture row. -/
theorem updateStarted_and_updateResult_unconditional_witness :
    ({ completedRow with status := .RUNNING, started_at := some 99 }
        ∈ (Execution.updateStarted completedRowStore 7 99).executions) ∧
    ({ completedRow with
       status := resultDataFx.status
       stdout := some resultDataFx.stdout
       stderr := some resultDataFx.stderr
       execution_time_ms := some resultDataFx.execution_time_ms
       exit_code := resultDataFx.exit_code
       timeout := resultDataFx.timeout
       finished_at := some resultDataFx.finished_at }
        ∈ (Execution.updateResult completedRowStore 7 resultDataFx).executions) :=
  updateStarted_and_updateResult_unconditional completedRowStore 7 99
    resultDataFx completedRow (by decide) rfl

/-- C3 counterexample: on a job whose session is missing the worker
rethrows after writing the FAILED row, so the processor rejects and the
queue retries the job — it is not acked as the claim states. -/
theorem processExecution_missing_session_not_acked :
    disposeOf (processExecution orphanQueuedStore 9 5 (.ok "" "") (.ok "" "") 0 50).result = .nack ∧
    (processExecution orphanQueuedStore 9 5 (.ok "" "") (.ok "" "") 0 50).result
      = .error "Session not found: 5" :=
  ⟨rfl, rfl⟩

/-- C3 amended: for every job whose session is missing, the worker
writes a terminal FAILED row whose stderr is the error message, but then
rethrows that error, so the job is handed back to the queue as failed
(nack, retried while attempts remain) instead of being acked. -/
theorem processExecution_missing_session_failed_row_then_nack
    (st : Store) (execId sessId : Nat) (c r : ExecResult) (t now : Int)
    (r0 : ExecutionRow) (hfind : Session.findById st sessId = none)
    (hmem : r0 ∈ st.executions) (hid : r0.id = execId) :
    (processExecution st execId sessId c r t now).result =
      .error ("Session not found: " ++ toString sessId) ∧
    disposeOf (processExecution st execId sessId c r t now).result = .nack ∧
    ({ r0 with
       status := .FAILED
       stdout := some ""
       stderr := some ("Session not found: " ++ toString sessId)
       execution_time_ms := some 0
       exit_code := some 1
       timeout := false
       started_at := some now
       finished_at := some now }
      ∈ (processExecution st execId sessId c r t now).store.executions) := by
  have hfind1 : Session.findById (Execution.updateStarted st execId now) sessId = none := hfind
  have hwl : Session.findWithLanguage (Execution.updateStarted st execId now) sessId = none := by
    simp [Session.findWithLanguage, hfind1]
  refine ⟨?_, ?_, ?_⟩ <;> simp only [processExecution, hwl]
  · rfl
  · unfold Execution.updateResult Execution.updateStarted
    simp only [List.map_map]
    refine List.mem_map.mpr ⟨r0, hmem, ?_⟩
    simp [hid]

/-- Witness for the C3 amended theorem at the orphaned queued row. -/
theorem processExecution_missing_session_failed_row_then_nack_witness :
    (processExecution orphanQueuedStore 9 5 (.ok "" "") (.ok "" "") 0 50).result =
      .error ("Session not found: " ++ toString (5 : Nat)) ∧
    disposeOf (processExecution orphanQueuedStore 9 5 (.ok "" "") (.ok "" "") 0 50).result = .nack ∧
    ({ orphanQueuedRow with
       status := .FAILED
       stdout := some ""
       stderr := some ("Session not found: " ++ toString (5 : Nat))
       execution_time_ms := some 0
       exit_code := some 1
       timeout := false
       started_at := some 50
       finished_at := some 50 }
      ∈ (processExecution orphanQueuedStore 9 5 (.ok "" "") (.ok "" "") 0 50).store.executions) :=
  processExecution_missing_session_failed_row_then_nack orphanQueuedStore 9 5
    (.ok "" "") (.ok "" "") 0 50 orphanQueuedRow rfl (by decide) rfl

/-- When `compileStepFailure` reports an early return, the returned
outcome has exactly the shape of the source's compile-failure record,
with a non-empty stderr as long as the fallback string is non-empty. -/
theorem compileStepFailure_some_spec (fallback : String) (c : ExecResult)
    (o : RunnerOutcome) (hfb : fallback ≠ "")
    (h : compileStepFailure fallback c = some o) :
    o.status = .FAILED ∧ o.stdout = "" ∧ o.execution_time_ms = 0 ∧
    o.exit_code = some 1 ∧ o.timeout = false ∧ o.stderr ≠ "" := by
  cases c with
  | ok out err =>
    by_cases hc : (containsLower (jsOr out (jsOr err "")) "error" ||
        containsLower (jsOr out (jsOr err "")) "not found") = true
    · simp only [compileStepFailure, hc, if_true] at h
      cases h
      exact ⟨rfl, rfl, rfl, rfl, rfl, jsOr_ne_empty _ _ hfb⟩
    · simp [compileStepFailure, hc] at h
  | err e =>
    simp only [compileStepFailure] at h
    cases h
    exact ⟨rfl, rfl, rfl, rfl, rfl, jsOr_ne_empty _ _ hfb⟩

/-- The compile step returns early whenever the compile process rejected
or its combined output carries an error marker. -/
theorem compileStepFailure_isSome (fallback : String) (c : ExecResult)
    (hfail : (∃ e, c = .err e) ∨ ∃ out err, c = .ok out err ∧
      (containsLower (jsOr out (jsOr err "")) "error" = true ∨
       containsLower (jsOr out (jsOr err "")) "not found" = true)) :
    (compileStepFailure fallback c).isSome = true := by
  rcases hfail with ⟨e, rfl⟩ | ⟨out, err, rfl, hmark⟩
  · rfl
  · have hc : (containsLower (jsOr out (jsOr err "")) "error" ||
        containsLower (jsOr out (jsOr err "")) "not found") = true := by
      rcases hmark with hm | hm <;> simp [hm]
    simp [compileStepFailure, hc]

/-- C7: on the compiled-language branches (`gcc`, `g++`), whenever the
compile process rejects (non-zero exit, timeout or spawn error) or its
combined output contains the case-insensitive marker `error` or
`not found`, `executeCode` returns exactly
`{status = FAILED, stdout = "", stderr ≠ "", execution_time_ms = 0,
exit_code = 1, timeout = false}`, and the result does not depend on the
run-step input — the run is never executed. -/
theorem compile_failure_short_circuits (lang : LanguageRow) (src : String)
    (c : ExecResult) (t : Int) (r r' : ExecResult)
    (hlang : lang.runtime = "gcc" ∨ lang.runtime = "g++")
    (hfail : (∃ e, c = .err e) ∨ ∃ out err, c = .ok out err ∧
      (containsLower (jsOr out (jsOr err "")) "error" = true ∨
       containsLower (jsOr out (jsOr err "")) "not found" = true)) :
    executeCode lang src c r t = executeCode lang src c r' t ∧
    (executeCode lang src c r t).status = .FAILED ∧
    (executeCode lang src c r t).stdout = "" ∧
    (executeCode lang src c r t).execution_time_ms = 0 ∧
    (executeCode lang src c r t).exit_code = some 1 ∧
    (executeCode lang src c r t).timeout = false ∧
    (executeCode lang src c r t).stderr ≠ "" := by
  rcases hlang with h | h
  · have hs := compileStepFailure_isSome
      "Compilation failed - gcc may not be installed" c hfail
    obtain ⟨o, ho⟩ := Option.isSome_iff_exists.mp hs
    have spec := compileStepFailure_some_spec _ c o (by decide) ho
    have he : ∀ x : ExecResult, executeCode lang src c x t = o := by
      intro x
      simp [executeCode, h, ho]
    rw [he r, he r']
    exact ⟨rfl, spec.1, spec.2.1, spec.2.2.1, spec.2.2.2.1, spec.2.2.2.2.1,
      spec.2.2.2.2.2⟩
  · have hs := compileStepFailure_isSome
      "Compilation failed - g++ may not be installed" c hfail
    obtain ⟨o, ho⟩ := Option.isSome_iff_exists.mp hs
    have spec := compileStepFailure_some_spec _ c o (by decide) ho
    have he : ∀ x : ExecResult, executeCode lang src c x t = o := by
      intro x
      simp [executeCode, h, ho]
    rw [he r, he r']
    exact ⟨rfl, spec.1, spec.2.1, spec.2.2.1, spec.2.2.2.1, spec.2.2.2.2.1,
      spec.2.2.2.2.2⟩

/-- Witness for C7: a gcc compile whose output carries `error`. -/
theorem compile_failure_short_circuits_witness :
    executeCode gccLang "int main(){return ;}"
        (.ok "main.c:1:1: error: expected expression" "") (.ok "" "") 5
      = executeCode gccLang "int main(){return ;}"
        (.ok "main.c:1:1: error: expected expression" "")
        (.err { killed := false, code := some 7, stdout := "", stderr := "", message := "boom" }) 5 ∧
    (executeCode gccLang "int main(){return ;}"
      (.ok "main.c:1:1: error: expected expression" "") (.ok "" "") 5).status = .FAILED ∧
    (executeCode gccLang "int main(){return ;}"
      (.ok "main.c:1:1: error: expected expression" "") (.ok "" "") 5).stdout = "" ∧
    (executeCode gccLang "int main(){return ;}"
      (.ok "main.c:1:1: error: expected expression" "") (.ok "" "") 5).execution_time_ms = 0 ∧
    (executeCode gccLang "int main(){return ;}"
      (.ok "main.c:1:1: error: expected expression" "") (.ok "" "") 5).exit_code = some 1 ∧
    (executeCode gccLang "int main(){return ;}"
      (.ok "main.c:1:1: error: expected expression" "") (.ok "" "") 5).timeout = false ∧
    (executeCode gccLang "int main(){return ;}"
      (.ok "main.c:1:1: error: expected expression" "") (.ok "" "") 5).stderr ≠ "" :=
  compile_failure_short_circuits gccLang "int main(){return ;}"
    (.ok "main.c:1:1: error: expected expression" "") 5 (.ok "" "")
    (.err { killed := false, code := some 7, stdout := "", stderr := "", message := "boom" })
    (Or.inl rfl)
    (Or.inr ⟨"main.c:1:1: error: expected expression", "", rfl, Or.inl (by decide)⟩)

/-- The run-step classification satisfies the outcome invariants. -/
theorem runStep_outcomeInv (r : ExecResult) (t : Int) :
    OutcomeInv (runStep r t) := by
  cases r with
  | ok out err => simp [OutcomeInv, runStep]
  | err e =>
    by_cases hk : e.killed = true <;>
      simp [OutcomeInv, runStep, hk]

/-- C8: every RunnerOutcome `executeCode` produces satisfies
`status = TIMEOUT ↔ timeout = true`, TIMEOUT implies a null exit code,
and COMPLETED implies exit code 0 with the timeout flag clear. -/
theorem executeCode_outcome_invariants (lang : LanguageRow) (src : String)
    (c r : ExecResult) (t : Int) :
    ((executeCode lang src c r t).status = .TIMEOUT ↔
      (executeCode lang src c r t).timeout = true) ∧
    ((executeCode lang src c r t).status = .TIMEOUT →
      (executeCode lang src c r t).exit_code = none) ∧
    ((executeCode lang src c r t).status = .COMPLETED →
      (executeCode lang src c r t).exit_code = some 0 ∧
      (executeCode lang src c r t).timeout = false) := by
  show OutcomeInv (executeCode lang src c r t)
  unfold executeCode
  split_ifs
  · exact runStep_outcomeInv r t
  · exact runStep_outcomeInv r t
  · rcases hc : compileStepFailure "Compilation failed - gcc may not be installed" c with _ | o
    · exact runStep_outcomeInv r t
    · have spec := compileStepFailure_some_spec _ c o (by decide) hc
      simp [OutcomeInv, spec.1, spec.2.2.2.1, spec.2.2.2.2.1]
  · rcases hc : compileStepFailure "Compilation failed - g++ may not be installed" c with _ | o
    · exact runStep_outcomeInv r t
    · have spec := compileStepFailure_some_spec _ c o (by decide) hc
      simp [OutcomeInv, spec.1, spec.2.2.2.1, spec.2.2.2.2.1]
  · simp [OutcomeInv]

/-- Witness for C8 at a concrete COMPLETED run. -/
theorem executeCode_outcome_invariants_witness :
    ((executeCode gccLang "x" (.ok "" "") (.ok "hi" "") 5).status = .TIMEOUT ↔
      (executeCode gccLang "x" (.ok "" "") (.ok "hi" "") 5).timeout = true) ∧
    ((executeCode gccLang "x" (.ok "" "") (.ok "hi" "") 5).status = .TIMEOUT →
      (executeCode gccLang "x" (.ok "" "") (.ok "hi" "") 5).exit_code = none) ∧
    ((executeCode gccLang "x" (.ok "" "") (.ok "hi" "") 5).status = .COMPLETED →
      (executeCode gccLang "x" (.ok "" "") (.ok "hi" "") 5).exit_code = some 0 ∧
      (executeCode gccLang "x" (.ok "" "") (.ok "hi" "") 5).timeout = false) :=
  executeCode_outcome_invariants gccLang "x" (.ok "" "") (.ok "hi" "") 5

/-- A FAILED run-step outcome has the non-empty stderr
`error.stderr || error.message`. -/
theorem runStep_failed_stderr (r : ExecResult) (t : Int) (hr : r.wf)
    (hf : (runStep r t).status = .FAILED) : (runStep r t).stderr ≠ "" := by
  cases r with
  | ok out err => simp [runStep] at hf
  | err e =>
    by_cases hk : e.killed = true
    · simp [runStep, hk] at hf
    · simp only [runStep, hk, Bool.false_eq_true, if_false]
      exact jsOr_ne_empty _ _ hr

/-- Any FAILED outcome of `executeCode` carries a non-empty stderr,
given well-formed child-process errors. -/
theorem executeCode_failed_stderr (lang : LanguageRow) (src : String)
    (c r : ExecResult) (t : Int) (hr : r.wf)
    (hf : (executeCode lang src c r t).status = .FAILED) :
    (executeCode lang src c r t).stderr ≠ "" := by
  unfold executeCode at hf ⊢
  split_ifs at hf ⊢
  · exact runStep_failed_stderr r t hr hf
  · exact runStep_failed_stderr r t hr hf
  · rcases hcs : compileStepFailure "Compilation failed - gcc may not be installed" c with _ | o
    · rw [hcs] at hf
      exact runStep_failed_stderr r t hr hf
    · exact (compileStepFailure_some_spec _ c o (by decide) hcs).2.2.2.2.2
  · rcases hcs : compileStepFailure "Compilation failed - g++ may not be installed" c with _ | o
    · rw [hcs] at hf
      exact runStep_failed_stderr r t hr hf
    · exact (compileStepFailure_some_spec _ c o (by decide) hcs).2.2.2.2.2
  · exact append_ne_empty_left _ _ (by decide)

/-- `updateStarted` preserves the FAILED-stderr invariant: it turns the
matching rows to RUNNING and leaves the others untouched. -/
theorem updateStarted_failedInv (st : Store) (i : Nat) (n : Int)
    (h : FailedStderrInv st) :
    FailedStderrInv (Execution.updateStarted st i n) := by
  intro row hrow hfail
  unfold Execution.updateStarted at hrow
  obtain ⟨r0, hr0, rfl⟩ := List.mem_map.mp hrow
  by_cases hid : (r0.id == i) = true
  · simp [hid] at hfail
  · simp only [hid, Bool.false_eq_true, if_false] at hfail ⊢
    exact h r0 hr0 hfail

/-- `updateResult` preserves the FAILED-stderr invariant as long as a
FAILED payload carries a non-empty stderr. -/
theorem updateResult_failedInv (st : Store) (i : Nat) (d : ResultData)
    (h : FailedStderrInv st) (hd : d.status = .FAILED → d.stderr ≠ "") :
    FailedStderrInv (Execution.updateResult st i d) := by
  intro row hrow hfail
  unfold Execution.updateResult at hrow
  obtain ⟨r0, hr0, rfl⟩ := List.mem_map.mp hrow
  by_cases hid : (r0.id == i) = true
  · simp only [hid, if_true] at hfail ⊢
    have := hd hfail
    constructor
    · simp
    · simpa using this
  · simp only [hid, Bool.false_eq_true, if_false] at hfail ⊢
    exact h r0 hr0 hfail

/-- C9: every write through which the worker puts an execution row into
FAILED — the Runner's outcome applied by `updateResult`, or the catch
branch's own FAILED write — stores a non-empty stderr: if every FAILED
row of the store carries a non-empty stderr before `processExecution`,
the same holds after it, for any well-formed run-step result. -/
theorem processExecution_preserves_failed_stderr
    (st : Store) (execId sessId : Nat) (c r : ExecResult) (t now : Int)
    (hr : r.wf) (hinv : FailedStderrInv st) :
    FailedStderrInv (processExecution st execId sessId c r t now).store := by
  unfold processExecution
  dsimp only
  have h1 := updateStarted_failedInv st execId now hinv
  cases hwl : Session.findWithLanguage (Execution.updateStarted st execId now) sessId with
  | none =>
    refine updateResult_failedInv _ _ _ h1 ?_
    intro _
    exact append_ne_empty_left _ _ (by decide)
  | some p =>
    obtain ⟨session, lrow⟩ := p
    dsimp only
    cases hl : Language.findById (Execution.updateStarted st execId now) session.language_id with
    | none =>
      refine updateResult_failedInv _ _ _ h1 ?_
      intro _
      exact append_ne_empty_left _ _ (by decide)
    | some language =>
      refine updateResult_failedInv _ _ _ h1 ?_
      intro hst
      exact executeCode_failed_stderr language session.source_code c r t hr hst

/-- Witness for C9: a run failure with exit code 2 on the open-session
store. -/
theorem processExecution_preserves_failed_stderr_witness :
    FailedStderrInv (processExecution openSessionStore 42 1
      (.ok "" "") (.err { killed := false, code := some 2, stdout := "", stderr := "", message := "boom" })
      7 50).store :=
  processExecution_preserves_failed_stderr openSessionStore 42 1
    (.ok "" "") (.err { killed := false, code := some 2, stdout := "", stderr := "", message := "boom" })
    7 50 (by simp [ExecResult.wf]) (by simp [FailedStderrInv, openSessionStore])

end LiveCode
